import Mathlib

/-!
Verification of the Multi-Signal Authenticity and Risk Scoring Engine of the
depression-monitoring backend.  The definitions below are a shallow embedding
of the Python sources:

  * backend/app/services/algorithm.py            (FakeCallAlgorithm)
  * backend/app/services/batch_fake_detection.py (BatchFakeDetectionService)
  * backend/app/services/call_bot_detection.py   (CallBotDetectionService)
  * backend/app/services/digital_twin_service.py (DigitalTwinService)
  * backend/app/services/phq9_service.py         (PHQ9Service)
  * backend/app/routes/chatbot.py                (PHQ-9 answer handling)

Python floats are modelled as exact rationals; Python sets are modelled as
deduplicated lists; character classification is the ASCII fragment of the
Python Unicode predicates, which agrees with the source on every input used
in the theorems below.
-/

/-- Clamp a rational to the interval [0, 1]; models
`max(0.0, min(1.0, x))` from algorithm.py line 217. -/
def clamp01 (x : ℚ) : ℚ := max 0 (min 1 x)

/-- TextFeatures dataclass from algorithm.py (lines 6-16).  Python float
fields are rationals, set fields are deduplicated lists.  The fields named
`..._ratio` in the source are called `...Frac` here. -/
structure TextFeatures where
  token_count : Nat
  nonsenseFrac : ℚ
  uniqueWordFrac : ℚ
  joke_word_count : Nat
  abuse_word_count : Nat
  suspicious_words : List String
  nonsense_words : List String
  joke_words_found : List String
  abuse_words_found : List String
deriving DecidableEq, Repr

/-- BehaviorFeatures dataclass from algorithm.py (lines 19-22). -/
structure BehaviorFeatures where
  call_duration_sec : ℚ
  repeat_call_count_last_hour : Int
deriving DecidableEq, Repr

/-- FakeCallResult dataclass from algorithm.py (lines 25-33); the two echoed
feature records are omitted, the scoring fields are kept. -/
structure FakeCallResult where
  fake_score : ℚ
  risk_label : String
  action : String
  suspicious_words : List String
  word_contributions : List (String × ℚ)
deriving DecidableEq, Repr

/-- Nonsense boost from algorithm.py line 172:
`0.2 * min(1.0, text_features.nonsense_ratio / 0.4)`. -/
def nonsenseBoostVal (tf : TextFeatures) : ℚ :=
  0.2 * min 1 (tf.nonsenseFrac / 0.4)

/-- Gate of step 1 in combine_scores (algorithm.py line 171):
`depression_score is None or depression_score < 0.3`. -/
def depressionGateLow (dep : Option ℚ) : Bool :=
  match dep with
  | none => true
  | some d => decide (d < 0.3)

/-- Running score after the additive rules 1-4 of combine_scores
(algorithm.py lines 163-206), before the safety override and the clamp. -/
def scoreAfterRules (p : ℚ) (tf : TextFeatures) (bf : BehaviorFeatures)
    (dep : Option ℚ) : ℚ :=
  let s0 := p
  let s1 := s0 + (if depressionGateLow dep = true ∧ 0 < nonsenseBoostVal tf
    then nonsenseBoostVal tf else 0)
  let s2 := s1 + (if 20 < tf.token_count ∧ tf.uniqueWordFrac < 0.3
    then 0.1 else 0)
  let s3 := s2 + (if 3 ≤ tf.joke_word_count then 0.1 else 0)
  let s4 := s3 + (if 3 ≤ tf.abuse_word_count then 0.15 else 0)
  s4 + (if bf.call_duration_sec < 15 ∧ 3 ≤ bf.repeat_call_count_last_hour
    then 0.2 else 0)

/-- Safety override, step 5 of combine_scores (algorithm.py lines 208-214):
when the depression score is known and at least the high-depression
threshold, the running score is capped by `min(fake_score, 0.3)`. -/
def applySafetyCap (threshold : ℚ) (dep : Option ℚ) (s : ℚ) : ℚ :=
  match dep with
  | none => s
  | some d => if threshold ≤ d then min s 0.3 else s

/-- Risk label mapping from algorithm.py lines 220-228. -/
def riskLabelOf (s : ℚ) : String :=
  if 0.7 ≤ s then "high_fake_risk"
  else if 0.4 ≤ s then "medium_fake_risk"
  else "low_fake_risk"

/-- Action mapping from algorithm.py lines 220-228. -/
def actionOf (s : ℚ) : String :=
  if 0.7 ≤ s then "flag_for_staff_review_low_priority"
  else if 0.4 ≤ s then "show_fake_warning_but_treat_as_normal"
  else "treat_as_normal"

/-- Suspicious word list accumulated by combine_scores (algorithm.py lines
176, 187-198): nonsense words only inside the fired step-1 gate, joke and
abuse words both at count at least 3 and, via the elif branch, at any
positive count. -/
def suspiciousCollected (tf : TextFeatures) (dep : Option ℚ) : List String :=
  (if depressionGateLow dep = true ∧ 0 < nonsenseBoostVal tf
    then tf.nonsense_words else [])
  ++ (if 3 ≤ tf.joke_word_count then tf.joke_words_found
      else if 0 < tf.joke_word_count then tf.joke_words_found else [])
  ++ (if 3 ≤ tf.abuse_word_count then tf.abuse_words_found
      else if 0 < tf.abuse_word_count then tf.abuse_words_found else [])

/-- Contribution ledger written by combine_scores (algorithm.py lines
168-214). -/
def wordContributionsOf (threshold p : ℚ) (tf : TextFeatures)
    (bf : BehaviorFeatures) (dep : Option ℚ) : List (String × ℚ) :=
  [("base_model_score", p)]
  ++ (if depressionGateLow dep = true ∧ 0 < nonsenseBoostVal tf
    then [("nonsense_patterns", nonsenseBoostVal tf)] else [])
  ++ (if 20 < tf.token_count ∧ tf.uniqueWordFrac < 0.3
    then [("low_vocabulary_richness", 0.1)] else [])
  ++ (if 3 ≤ tf.joke_word_count then [("joke_words", 0.1)] else [])
  ++ (if 3 ≤ tf.abuse_word_count then [("abuse_words", 0.15)] else [])
  ++ (if bf.call_duration_sec < 15 ∧ 3 ≤ bf.repeat_call_count_last_hour
    then [("suspicious_behavior", 0.2)] else [])
  ++ (match dep with
    | none => []
    | some d =>
      if threshold ≤ d ∧
          min (scoreAfterRules p tf bf dep) 0.3 - scoreAfterRules p tf bf dep < 0
      then [("depression_safety_adjustment",
        min (scoreAfterRules p tf bf dep) 0.3 - scoreAfterRules p tf bf dep)]
      else [])

/-- FakeCallAlgorithm.combine_scores from algorithm.py lines 148-241.  The
`threshold` argument is `self.high_depression_threshold` (default 0.7). -/
def combineScores (threshold p : ℚ) (tf : TextFeatures)
    (bf : BehaviorFeatures) (dep : Option ℚ) : FakeCallResult :=
  let s := scoreAfterRules p tf bf dep
  let capped := applySafetyCap threshold dep s
  let finalScore := clamp01 capped
  { fake_score := finalScore
    risk_label := riskLabelOf finalScore
    action := actionOf finalScore
    suspicious_words := (suspiciousCollected tf dep).dedup
    word_contributions := wordContributionsOf threshold p tf bf dep }

/-- Word characters of the tokenizer regex in algorithm.py line 64 (ASCII
fragment of the regex class of word characters). -/
def isWordChar (c : Char) : Bool := c.isAlphanum || c == '_'

/-- Lower-casing of the transcript, algorithm.py line 64. -/
def pyLower (l : List Char) : List Char := l.map Char.toLower

/-- Maximal runs of word characters, the sequence of regex matches used by
the tokenizer in algorithm.py line 64. -/
def tokenizeGo : List Char → List Char → List (List Char)
  | [], acc => if acc.isEmpty then [] else [acc.reverse]
  | c :: cs, acc =>
    if isWordChar c then tokenizeGo cs (c :: acc)
    else if acc.isEmpty then tokenizeGo cs []
    else acc.reverse :: tokenizeGo cs []

/-- FakeCallAlgorithm._tokenize from algorithm.py lines 62-64. -/
def tokenizeText (s : String) : List String :=
  (tokenizeGo (pyLower s.toList) []).map fun cs => String.mk cs

/-- Four identical consecutive characters, the backreference search in
algorithm.py line 107. -/
def hasRepeat4 : List Char → Bool
  | [] => false
  | a :: rest =>
    match rest with
    | b :: c :: d :: _ => (a == b && b == c && c == d) || hasRepeat4 rest
    | _ => false

/-- Alphabetic character share of a token, algorithm.py lines 104-105. -/
def alphaFrac (t : List Char) : ℚ :=
  ((t.countP fun c => c.isAlpha) : ℚ) / (t.length : ℚ)

/-- Nonsense heuristic of algorithm.py lines 109-113: over-long token, low
alphabetic share, or four identical consecutive characters. -/
def isNonsenseToken (t : List Char) : Bool :=
  decide (20 < t.length) || decide (alphaFrac t < 0.5) || hasRepeat4 t

/-- Default joke word set of FakeCallAlgorithm (algorithm.py lines 52-54). -/
def defaultJokeWords : List String :=
  ["prank", "joke", "justkidding", "lol", "lmao", "forfun"]

/-- Default abuse word set of FakeCallAlgorithm (algorithm.py lines 55-57). -/
def defaultAbuseWords : List String :=
  ["idiot", "stupid", "fool", "bitch", "fuck"]

/-- FakeCallAlgorithm.extract_text_features from algorithm.py lines 66-133.
Python sets become deduplicated lists (first occurrence kept). -/
def extractTextFeatures (jokeWords abuseWords : List String)
    (transcript : String) : TextFeatures :=
  let tokens := tokenizeText transcript
  if tokens.length = 0 then
    { token_count := 0, nonsenseFrac := 1, uniqueWordFrac := 0,
      joke_word_count := 0, abuse_word_count := 0,
      suspicious_words := [], nonsense_words := [],
      joke_words_found := [], abuse_words_found := [] }
  else
    let jokeFound := (tokens.filter fun t => jokeWords.contains t).dedup
    let abuseFound := (tokens.filter fun t => abuseWords.contains t).dedup
    let nonsenseFound := (tokens.filter fun t => isNonsenseToken t.toList).dedup
    { token_count := tokens.length
      nonsenseFrac :=
        ((tokens.countP fun t => isNonsenseToken t.toList) : ℚ) /
          (tokens.length : ℚ)
      uniqueWordFrac := (tokens.dedup.length : ℚ) / (tokens.length : ℚ)
      joke_word_count := tokens.countP fun t => jokeWords.contains t
      abuse_word_count := tokens.countP fun t => abuseWords.contains t
      suspicious_words := (jokeFound ++ abuseFound ++ nonsenseFound).dedup
      nonsense_words := nonsenseFound
      joke_words_found := jokeFound
      abuse_words_found := abuseFound }

/-- Aggregated typing features of a batch, the dictionary built by
BatchFakeDetectionService._aggregate_typing_features
(batch_fake_detection.py lines 193-245). -/
structure TypingBatchFeatures where
  timing_variance : ℚ
  timing_mean : ℚ
  timing_std : ℚ
  avg_typing_speed : ℚ
  std_typing_speed : ℚ
  avg_pause_duration : ℚ
  avg_error_rate : ℚ
  speed_consistency : ℚ
  timing_consistency : ℚ
deriving DecidableEq, Repr

/-- Aggregated voice features of a batch, the dictionary built by
BatchFakeDetectionService._aggregate_voice_features
(batch_fake_detection.py lines 247-285). -/
structure VoiceBatchFeatures where
  pitch_variance : ℚ
  pitch_mean : ℚ
  energy_variance : ℚ
  energy_mean : ℚ
  pitch_consistency : ℚ
  energy_consistency : ℚ
  avg_fake_confidence : ℚ
deriving DecidableEq, Repr

/-- BatchFakeDetectionService._detect_fake_typing_patterns from
batch_fake_detection.py lines 287-314: five all-or-nothing bonuses summed
and capped at 1. -/
def detectFakeTypingPatterns (f : TypingBatchFeatures) : ℚ :=
  let s0 : ℚ := 0
  let s1 := s0 + (if 0.9 < f.speed_consistency then 0.3 else 0)
  let s2 := s1 + (if 0.85 < f.timing_consistency then 0.25 else 0)
  let s3 := s2 + (if f.avg_error_rate < 0.01 then 0.15 else 0)
  let s4 := s3 + (if 0 < f.avg_pause_duration ∧ f.timing_std < 0.1
    then 0.1 else 0)
  let s5 := s4 + (if f.timing_variance < 0.01 then 0.2 else 0)
  min 1 s5

/-- BatchFakeDetectionService._detect_fake_voice_patterns from
batch_fake_detection.py lines 316-339. -/
def detectFakeVoicePatterns (f : VoiceBatchFeatures) : ℚ :=
  let s0 : ℚ := 0
  let s1 := s0 + (if 0.9 < f.pitch_consistency then 0.3 else 0)
  let s2 := s1 + (if 0.85 < f.energy_consistency then 0.25 else 0)
  let s3 := s2 + (if f.pitch_variance < 10 then 0.2 else 0)
  let s4 := s3 + (if 0.5 < f.avg_fake_confidence then 0.25 else 0)
  min 1 s4

/-- Fake verdict for a typing batch, batch_fake_detection.py line 99:
`is_fake = fake_score >= 0.6`. -/
def typingBatchIsFake (f : TypingBatchFeatures) : Bool :=
  decide (0.6 ≤ detectFakeTypingPatterns f)

/-- Modelled from the spec (section 4.2): the typing-batch fake score as the
clamped-to-[0,1] sum of the five independent all-or-nothing bonuses; used as
the specification side of claim C5. -/
def specTypingBatchScore (f : TypingBatchFeatures) : ℚ :=
  max 0 (min 1
    ((if 0.9 < f.speed_consistency then (0.3:ℚ) else 0)
    + (if 0.85 < f.timing_consistency then 0.25 else 0)
    + (if f.avg_error_rate < 0.01 then 0.15 else 0)
    + (if 0 < f.avg_pause_duration ∧ f.timing_std < 0.1 then 0.1 else 0)
    + (if f.timing_variance < 0.01 then 0.2 else 0)))

/-- CallBotDetectionService._analyze_pitch_consistency scoring step
(call_bot_detection.py lines 399-407), expressed as a function of the
coefficient of variation; threshold 0.15, residual 0.3 above the
threshold, final clamp to [0,1]. -/
def pitchBotScoreOfCv (cv : ℚ) : ℚ :=
  let raw := if cv < 0.15 then 1 - cv / 0.15
    else max 0 (0.3 - (cv - 0.15) * 2)
  min 1 (max 0 raw)

/-- CallBotDetectionService._analyze_energy_patterns scoring step
(call_bot_detection.py lines 422-430); threshold 0.1, residual 0.2. -/
def energyBotScoreOfCv (cv : ℚ) : ℚ :=
  let raw := if cv < 0.1 then 1 - cv / 0.1
    else max 0 (0.2 - (cv - 0.1) * 2)
  min 1 (max 0 raw)

/-- CallBotDetectionService._analyze_spectral_characteristics scoring step
(call_bot_detection.py lines 476-484); threshold 0.12, residual 0.3. -/
def spectralBotScoreOfCv (cv : ℚ) : ℚ :=
  let raw := if cv < 0.12 then 1 - cv / 0.12
    else max 0 (0.3 - (cv - 0.12) * 2)
  min 1 (max 0 raw)

/-- CallBotDetectionService._analyze_zero_crossing_rate scoring step
(call_bot_detection.py lines 498-506); threshold 0.08, residual 0.2. -/
def zcrBotScoreOfCv (cv : ℚ) : ℚ :=
  let raw := if cv < 0.08 then 1 - cv / 0.08
    else max 0 (0.2 - (cv - 0.08) * 2)
  min 1 (max 0 raw)

/-- CallBotDetectionService._analyze_formant_patterns scoring step
(call_bot_detection.py lines 528-534): a three-valued step function of the
first-formant coefficient of variation. -/
def formantBotScoreOfCv (cv : ℚ) : ℚ :=
  if cv < 0.1 then 0.8 else if cv < 0.15 then 0.5 else 0.2

/-- CallBotDetectionService._analyze_mfcc_anomalies scoring step
(call_bot_detection.py lines 447-459), as a function of the variance
pattern and of the standard deviation and mean of the per-coefficient
standard deviations. -/
def mfccBotScore (variancePattern stdOfStd meanOfStd : ℚ) : ℚ :=
  let anomalyScore := min 1 (variancePattern / 0.5)
  let regularityScore := max 0 (1 - stdOfStd / (meanOfStd + 1/1000000))
  min 1 (max 0 (anomalyScore * 0.4 + regularityScore * 0.6))

/-- Rule-based fallback fake probability of
CallBotDetectionService.detect_call_bot (call_bot_detection.py lines
257-265): fixed weighted sum of the six per-signal bot scores. -/
def fallbackFakeScore (pitch energy mfcc spectral zcr formant : ℚ) : ℚ :=
  pitch * 0.20 + energy * 0.15 + mfcc * 0.25
    + spectral * 0.15 + zcr * 0.10 + formant * 0.15

/-- Interpretation record returned by PHQ9Service.interpret_score
(phq9_service.py lines 204-210). -/
structure PHQ9Interp where
  score : Int
  severity : String
  risk_level : String
  recommendation : String
  needs_escalation : Bool
deriving DecidableEq, Repr

/-- PHQ9Service.interpret_score from phq9_service.py lines 175-210.  The
Python ValueError on a total outside [0,27] is modelled as `none`. -/
def interpretScore (score : Int) : Option PHQ9Interp :=
  if score < 0 ∨ 27 < score then none
  else if score ≤ 4 then
    some { score := score
           severity := "minimal"
           risk_level := "low"
           recommendation := "Your responses suggest minimal depression symptoms. Continue monitoring your mental health."
           needs_escalation := decide (15 ≤ score) }
  else if score ≤ 9 then
    some { score := score
           severity := "mild"
           risk_level := "moderate"
           recommendation := "Your responses suggest mild depression. Consider speaking with a mental health professional."
           needs_escalation := decide (15 ≤ score) }
  else if score ≤ 14 then
    some { score := score
           severity := "moderate"
           risk_level := "high"
           recommendation := "Your responses suggest moderate depression. We recommend speaking with a mental health professional or calling 1926."
           needs_escalation := decide (15 ≤ score) }
  else if score ≤ 19 then
    some { score := score
           severity := "moderately_severe"
           risk_level := "severe"
           recommendation := "Your responses suggest moderately severe depression. Please consider immediate support. Call 1926 or speak with a mental health professional."
           needs_escalation := decide (15 ≤ score) }
  else
    some { score := score
           severity := "severe"
           risk_level := "severe"
           recommendation := "Your responses suggest severe depression. Please seek immediate support. Call 1926 now or contact a mental health professional urgently."
           needs_escalation := decide (15 ≤ score) }

/-- English text-answer synonym table of PHQ9Service.parse_answer
(phq9_service.py lines 119-124), in source order. -/
def phq9TextToScoreEn : List (String × Nat) :=
  [("not at all", 0), ("never", 0), ("none", 0), ("no", 0),
   ("several days", 1), ("some days", 1), ("sometimes", 1), ("few", 1),
   ("more than half", 2), ("half", 2), ("often", 2), ("frequently", 2),
   ("nearly every day", 3), ("every day", 3), ("daily", 3), ("always", 3),
   ("most days", 3)]

/-- Sinhala text-answer synonym table of PHQ9Service.parse_answer
(phq9_service.py lines 131-136), in source order. -/
def phq9TextToScoreSi : List (String × Nat) :=
  [("කිසිසේත් නැත", 0), ("නැත", 0),
   ("දින කිහිපයක්", 1), ("සමහර දින", 1),
   ("දින අඩකට වඩා", 2), ("බොහෝ විට", 2),
   ("දිනපතාම", 3), ("සැමදා", 3)]

/-- Tamil text-answer synonym table of PHQ9Service.parse_answer
(phq9_service.py lines 143-148), in source order. -/
def phq9TextToScoreTa : List (String × Nat) :=
  [("இல்லை", 0), ("ஒருபோதும்", 0),
   ("சில நாட்கள்", 1), ("சில", 1),
   ("பாதிக்கும் மேற்பட்ட", 2), ("பெரும்பாலும்", 2),
   ("கிட்டத்தட்ட ஒவ்வொரு நாளும்", 3), ("ஒவ்வொரு நாளும்", 3)]

/-- Initial-segment test of one character list against another. -/
def charsStartWith : List Char → List Char → Bool
  | [], _ => true
  | _ :: _, [] => false
  | k :: ks, c :: cs => k == c && charsStartWith ks cs

/-- Contiguous-substring test, the Python `key in answer` operator on
strings. -/
def charsContain (key : List Char) : List Char → Bool
  | [] => key.isEmpty
  | c :: cs => charsStartWith key (c :: cs) || charsContain key cs

/-- First synonym whose key occurs as a substring of the answer, the
`for key, value ... if key in answer` loops of parse_answer. -/
def lookupContains (a : List Char) : List (String × Nat) → Option Nat
  | [] => none
  | (k, v) :: rest =>
    if charsContain k.toList a then some v else lookupContains a rest

/-- Decimal value of a digit string, the `int(answer)` conversion. -/
def natOfDigits (l : List Char) : Nat :=
  l.foldl (fun n c => 10 * n + (c.toNat - 48)) 0

/-- Python str.strip modelled on character lists (ASCII whitespace). -/
def stripChars (l : List Char) : List Char :=
  ((l.dropWhile Char.isWhitespace).reverse.dropWhile Char.isWhitespace).reverse

/-- PHQ9Service.parse_answer from phq9_service.py lines 105-154: strip and
lower-case the answer; a pure digit string in [0,3] parses directly (out of
range digit strings fall through, exactly as in the source); otherwise the
English, Sinhala and Tamil substring tables are consulted in order; `none`
models the unparseable case. -/
def parseAnswer (answer : String) : Option Nat :=
  let a := (stripChars answer.toList).map Char.toLower
  let digitCase : Option Nat :=
    if a ≠ [] ∧ a.all Char.isDigit then
      if natOfDigits a ≤ 3 then some (natOfDigits a) else none
    else none
  match digitCase with
  | some n => some n
  | none =>
    match lookupContains a phq9TextToScoreEn with
    | some v => some v
    | none =>
      match lookupContains a phq9TextToScoreSi with
      | some v => some v
      | none => lookupContains a phq9TextToScoreTa

/-- PHQ-9 slice of the chat session document used by the chatbot route
(chatbot.py lines 115-231): the current question number and the recorded
answers keyed by question number (order of the pairs is irrelevant; the
route stores them as a dictionary). -/
structure Phq9SessionState where
  currentQuestion : Nat
  answers : List (Nat × Nat)
deriving DecidableEq, Repr

/-- Outcome of one PHQ-9 answer submission in the chat route: the session
state after any update, the question presented back to the user (none on
completion), the response intent, and the completion flag. -/
structure Phq9StepOutcome where
  state : Phq9SessionState
  presentedQuestion : Option Nat
  intent : String
  completed : Bool
deriving DecidableEq, Repr

/-- Dictionary update `answers[current_question] = answer_score` from
chatbot.py line 160. -/
def answersInsert (answers : List (Nat × Nat)) (q a : Nat) :
    List (Nat × Nat) :=
  (answers.filter fun p => p.1 ≠ q) ++ [(q, a)]

/-- PHQ9Service.is_complete from phq9_service.py lines 218-220. -/
def phq9IsComplete (answers : List (Nat × Nat)) : Bool :=
  answers.length == 9 &&
    (List.range 9).all fun i => answers.any fun p => p.1 == i + 1

/-- PHQ9Service.get_next_question from phq9_service.py lines 212-216. -/
def phq9GetNextQuestion (cq : Nat) : Option Nat :=
  if cq < 9 then some (cq + 1) else none

/-- PHQ-9 answer handling branch of the chat route (chatbot.py lines
115-231): sanitize the stored current question into [1,9]; a message that
does not parse returns the phq9_error response re-presenting the current
question and performs no session update; a parsed score is recorded and
either completes the questionnaire or advances to the next question. -/
def phq9HandleAnswer (s : Phq9SessionState) (msg : String) :
    Phq9StepOutcome :=
  let cq := if 1 ≤ s.currentQuestion ∧ s.currentQuestion ≤ 9
    then s.currentQuestion else 1
  match parseAnswer msg with
  | none =>
    { state := s, presentedQuestion := some cq, intent := "phq9_error",
      completed := false }
  | some score =>
    let answers := answersInsert s.answers cq score
    if phq9IsComplete answers then
      { state := { currentQuestion := cq, answers := answers },
        presentedQuestion := none, intent := "phq9_complete",
        completed := true }
    else
      let next := match phq9GetNextQuestion cq with
        | some n => n
        | none => 9
      { state := { currentQuestion := next, answers := answers },
        presentedQuestion := some next, intent := "phq9_question",
        completed := false }

/-- Insertion step of a stable sort on a boolean order, used to model the
`sorted(...)` calls of digital_twin_service.py. -/
def insertSorted {α : Type} (le : α → α → Bool) (a : α) : List α → List α
  | [] => [a]
  | b :: bs => if le a b then a :: b :: bs else b :: insertSorted le a bs

/-- Insertion sort on a boolean order. -/
def sortListBy {α : Type} (le : α → α → Bool) : List α → List α
  | [] => []
  | a :: as => insertSorted le a (sortListBy le as)

/-- Session document slice consumed by DigitalTwinService: start time,
optional risk label and optional depression score. -/
structure TwinSession where
  startTime : Int
  riskLevel : Option String
  depressionScore : Option ℚ
deriving DecidableEq, Repr

/-- Mood check-in document slice consumed by DigitalTwinService: creation
time and optional mood string. -/
structure MoodCheckin where
  createdAt : Int
  mood : Option String
deriving DecidableEq, Repr

/-- Risk level order `["low", "moderate", "high", "severe"]` from
digital_twin_service.py line 140. -/
def riskOrder : List String := ["low", "moderate", "high", "severe"]

/-- Index of a risk label in the order, defaulting to 0 for labels outside
the scale (digital_twin_service.py lines 141-142). -/
def riskIndex (r : String) : Nat :=
  if r ∈ riskOrder then riskOrder.indexOf r else 0

/-- Label at an index of the risk order (digital_twin_service.py
line 145). -/
def levelOfIndex (i : Nat) : String := riskOrder.getD i "low"

/-- Membership chain of _determine_overall_risk (digital_twin_service.py
lines 129-134): severe beats high beats moderate beats low. -/
def riskChainOf (ls : List String) : String :=
  if "severe" ∈ ls then "severe"
  else if "high" ∈ ls then "high"
  else if "moderate" ∈ ls then "moderate"
  else "low"

/-- Modelled from the spec (section 4.5): the pointwise maximum of the risk
indices of a list of labels, the specification side of claim C3. -/
def labelsMaxIndex (ls : List String) : Nat :=
  ls.foldr (fun l acc => max (riskIndex l) acc) 0

/-- Five most recent sessions by start time (digital_twin_service.py
line 126). -/
def recentFiveSessions (sessions : List TwinSession) : List TwinSession :=
  (sortListBy (fun a b => decide (b.startTime ≤ a.startTime)) sessions).take 5

/-- Risk labels of the five most recent sessions, with missing labels
dropped (digital_twin_service.py line 127). -/
def sessionRiskLabels (sessions : List TwinSession) : List String :=
  (recentFiveSessions sessions).filterMap fun s => s.riskLevel

/-- Session-derived risk of _determine_overall_risk
(digital_twin_service.py lines 117-134). -/
def sessionDerivedRisk (sessions : List TwinSession) : String :=
  if sessions.isEmpty then "low"
  else riskChainOf (sessionRiskLabels sessions)

/-- Negative mood set of _calculate_mood_risk (digital_twin_service.py
line 174). -/
def negativeMoods : List String := ["Sad", "Anxious"]

/-- Negativity test on an optional mood (digital_twin_service.py
line 175). -/
def moodIsNegative (m : Option String) : Bool :=
  match m with
  | some mood => negativeMoods.contains mood
  | none => false

/-- Moods of the check-ins of the last 7 days (digital_twin_service.py
lines 152-168); time is in seconds. -/
def recentMoodsOf (now : Int) (checkins : List MoodCheckin) :
    List (Option String) :=
  (checkins.filter fun c => decide (now - 7 * 86400 ≤ c.createdAt)).map
    fun c => c.mood

/-- DigitalTwinService._calculate_mood_risk from digital_twin_service.py
lines 147-186: share of negative moods in the last 7 days against the
0.7 / 0.5 / 0.3 bands. -/
def calculateMoodRisk (now : Int) (checkins : List MoodCheckin) : String :=
  if checkins.isEmpty then "low"
  else
    let recentMoods := recentMoodsOf now checkins
    if recentMoods.isEmpty then "low"
    else
      let negFrac : ℚ := (recentMoods.countP moodIsNegative : ℚ) /
        (recentMoods.length : ℚ)
      if 0.7 ≤ negFrac then "severe"
      else if 0.5 ≤ negFrac then "high"
      else if 0.3 ≤ negFrac then "moderate"
      else "low"

/-- DigitalTwinService._determine_overall_risk from digital_twin_service.py
lines 112-145: the label at the larger of the two risk indices. -/
def determineOverallRisk (now : Int) (sessions : List TwinSession)
    (checkins : List MoodCheckin) : String :=
  levelOfIndex (max (riskIndex (sessionDerivedRisk sessions))
    (riskIndex (calculateMoodRisk now checkins)))

/-- Sessions in ascending start-time order (digital_twin_service.py
line 248). -/
def sortSessionsAsc (sessions : List TwinSession) : List TwinSession :=
  sortListBy (fun a b => decide (a.startTime ≤ b.startTime)) sessions

/-- Depression scores of the five most recent sessions, the slice
`sorted_sessions[-5:]` of digital_twin_service.py line 249. -/
def recentScoresOf (sessions : List TwinSession) : List ℚ :=
  ((sortSessionsAsc sessions).drop ((sortSessionsAsc sessions).length - 5)
    ).filterMap fun s => s.depressionScore

/-- Depression scores of all earlier sessions, the slice
`sorted_sessions[:-5]` of digital_twin_service.py line 250. -/
def earlierScoresOf (sessions : List TwinSession) : List ℚ :=
  ((sortSessionsAsc sessions).take ((sortSessionsAsc sessions).length - 5)
    ).filterMap fun s => s.depressionScore

/-- Mean of the recent depression scores (digital_twin_service.py
line 255). -/
def recentAvgOf (sessions : List TwinSession) : ℚ :=
  (recentScoresOf sessions).sum / ((recentScoresOf sessions).length : ℚ)

/-- Mean of the earlier depression scores (digital_twin_service.py
line 256). -/
def earlierAvgOf (sessions : List TwinSession) : ℚ :=
  (earlierScoresOf sessions).sum / ((earlierScoresOf sessions).length : ℚ)

/-- DigitalTwinService._calculate_trends from digital_twin_service.py lines
237-263: `none` models the empty trend dictionary. -/
def calculateTrends (sessions : List TwinSession) : Option (String × ℚ) :=
  if sessions.length < 2 then none
  else if recentScoresOf sessions = [] ∨ earlierScoresOf sessions = []
    then none
  else
    some (if recentAvgOf sessions < earlierAvgOf sessions then "improving"
      else if earlierAvgOf sessions < recentAvgOf sessions then "declining"
      else "stable",
      recentAvgOf sessions - earlierAvgOf sessions)

/-- Safety override dominance (claim C1): whenever the depression score is
known and at least the high-depression threshold, the final fake score of
combine_scores is at most 0.3, for every model probability and every text
and behavior feature bundle. -/
theorem combine_scores_safety_override_dominance
    (threshold p : ℚ) (tf : TextFeatures) (bf : BehaviorFeatures) (d : ℚ)
    (h : threshold ≤ d) :
    (combineScores threshold p tf bf (some d)).fake_score ≤ 0.3 := by
  unfold combineScores applySafetyCap clamp01
  simp only [h, if_true]
  have h1 : min 1 (min (scoreAfterRules p tf bf (some d)) 0.3) ≤ 0.3 :=
    le_trans (min_le_right _ _) (min_le_right _ _)
  have h2 : (0 : ℚ) ≤ 0.3 := by norm_num
  exact max_le h2 h1

/-- Witness for claim C1 at the high-depression threshold 0.7 of the default
configuration, with depression score 0.85. -/
theorem combine_scores_safety_override_dominance_witness :
    (combineScores 0.7 0.6
      { token_count := 10, nonsenseFrac := 1, uniqueWordFrac := 0.1,
        joke_word_count := 3, abuse_word_count := 3,
        suspicious_words := [], nonsense_words := ["aaaa"],
        joke_words_found := ["lol"], abuse_words_found := ["idiot"] }
      { call_duration_sec := 8, repeat_call_count_last_hour := 4 }
      (some 0.85)).fake_score ≤ 0.3 :=
  combine_scores_safety_override_dominance 0.7 0.6 _ _ 0.85 (by norm_num)

/-- Helper: the label and action mappings are the step function with
breakpoints 0.4 and 0.7 applied to the final score. -/
theorem labelAction_cases (x : ℚ) :
    ((riskLabelOf x = "high_fake_risk" ∧
        actionOf x = "flag_for_staff_review_low_priority") ↔ 0.7 ≤ x)
    ∧ ((riskLabelOf x = "medium_fake_risk" ∧
        actionOf x = "show_fake_warning_but_treat_as_normal") ↔
          0.4 ≤ x ∧ x < 0.7)
    ∧ ((riskLabelOf x = "low_fake_risk" ∧
        actionOf x = "treat_as_normal") ↔ x < 0.4) := by
  unfold riskLabelOf actionOf
  split_ifs with h1 h2 <;> simp_all <;> try linarith

/-- Monotonic risk labeling (claim C6): the risk label and action returned by
combine_scores are determined by the final fake score with breakpoints
exactly at 0.4 and 0.7; high with the review action if and only if the score
is at least 0.7, medium with the warning action if and only if the score is
in [0.4, 0.7), low with treat_as_normal if and only if the score is
below 0.4. -/
theorem risk_label_step_function (threshold p : ℚ) (tf : TextFeatures)
    (bf : BehaviorFeatures) (dep : Option ℚ) :
    (((combineScores threshold p tf bf dep).risk_label = "high_fake_risk" ∧
        (combineScores threshold p tf bf dep).action =
          "flag_for_staff_review_low_priority") ↔
      0.7 ≤ (combineScores threshold p tf bf dep).fake_score)
    ∧ (((combineScores threshold p tf bf dep).risk_label = "medium_fake_risk" ∧
        (combineScores threshold p tf bf dep).action =
          "show_fake_warning_but_treat_as_normal") ↔
      0.4 ≤ (combineScores threshold p tf bf dep).fake_score ∧
        (combineScores threshold p tf bf dep).fake_score < 0.7)
    ∧ (((combineScores threshold p tf bf dep).risk_label = "low_fake_risk" ∧
        (combineScores threshold p tf bf dep).action = "treat_as_normal") ↔
      (combineScores threshold p tf bf dep).fake_score < 0.4) :=
  labelAction_cases (combineScores threshold p tf bf dep).fake_score

/-- Counterexample to claim C7: in the transcript
"abcdefghijabcdefghijabc" the single 23-character token triggers the
nonsense classifier (token length over 20), yet with a known depression
score of 0.5 (which closes the step-1 gate) combine_scores does not report
it among the suspicious words. -/
theorem suspicious_tokens_counterexample :
    "abcdefghijabcdefghijabc" ∈ (extractTextFeatures defaultJokeWords
        defaultAbuseWords "abcdefghijabcdefghijabc").nonsense_words ∧
    "abcdefghijabcdefghijabc" ∉ (combineScores 0.7 0.5
        (extractTextFeatures defaultJokeWords defaultAbuseWords
          "abcdefghijabcdefghijabc")
        { call_duration_sec := 30, repeat_call_count_last_hour := 0 }
        (some 0.5)).suspicious_words := by
  constructor
  · decide
  · have hgate : depressionGateLow (some (0.5 : ℚ)) = false := by
      simp only [depressionGateLow, decide_eq_false_iff_not, not_lt]
      norm_num
    have hj : (extractTextFeatures defaultJokeWords defaultAbuseWords
        "abcdefghijabcdefghijabc").joke_word_count = 0 := by decide
    have ha : (extractTextFeatures defaultJokeWords defaultAbuseWords
        "abcdefghijabcdefghijabc").abuse_word_count = 0 := by decide
    simp [combineScores, suspiciousCollected, hgate, hj, ha]

/-- Helper: a word in the extracted joke set forces a positive joke count. -/
theorem extract_joke_count_pos {jw aw : List String} {tr w : String}
    (h : w ∈ (extractTextFeatures jw aw tr).joke_words_found) :
    0 < (extractTextFeatures jw aw tr).joke_word_count := by
  by_cases h0 : (tokenizeText tr).length = 0
  · simp [extractTextFeatures, h0] at h
  · simp only [extractTextFeatures, h0, if_false] at h ⊢
    rw [List.mem_dedup, List.mem_filter] at h
    exact List.countP_pos_iff.mpr ⟨w, h.1, h.2⟩

/-- Helper: a word in the extracted abuse set forces a positive abuse
count. -/
theorem extract_abuse_count_pos {jw aw : List String} {tr w : String}
    (h : w ∈ (extractTextFeatures jw aw tr).abuse_words_found) :
    0 < (extractTextFeatures jw aw tr).abuse_word_count := by
  by_cases h0 : (tokenizeText tr).length = 0
  · simp [extractTextFeatures, h0] at h
  · simp only [extractTextFeatures, h0, if_false] at h ⊢
    rw [List.mem_dedup, List.mem_filter] at h
    exact List.countP_pos_iff.mpr ⟨w, h.1, h.2⟩

/-- Helper: a word in the extracted nonsense set forces a positive nonsense
boost. -/
theorem extract_nonsense_boost_pos {jw aw : List String} {tr w : String}
    (h : w ∈ (extractTextFeatures jw aw tr).nonsense_words) :
    0 < nonsenseBoostVal (extractTextFeatures jw aw tr) := by
  by_cases h0 : (tokenizeText tr).length = 0
  · simp [extractTextFeatures, h0] at h
  · have hlen : 0 < (tokenizeText tr).length := Nat.pos_of_ne_zero h0
    simp only [extractTextFeatures, h0, if_false] at h ⊢
    rw [List.mem_dedup, List.mem_filter] at h
    have hc : 0 < (tokenizeText tr).countP fun t => isNonsenseToken t.toList :=
      List.countP_pos_iff.mpr ⟨w, h.1, h.2⟩
    unfold nonsenseBoostVal
    have hfrac : (0:ℚ) <
        ((tokenizeText tr).countP fun t => isNonsenseToken t.toList : ℚ) /
          ((tokenizeText tr).length : ℚ) :=
      div_pos (by exact_mod_cast hc) (by exact_mod_cast hlen)
    have hmin : (0:ℚ) < min 1
        ((((tokenizeText tr).countP fun t => isNonsenseToken t.toList : ℚ) /
          ((tokenizeText tr).length : ℚ)) / 0.4) :=
      lt_min one_pos (div_pos hfrac (by norm_num))
    have h02 : (0:ℚ) < 0.2 := by norm_num
    exact mul_pos h02 hmin

/-- Helper: joke words reach the deduplicated suspicious list whenever the
joke count is positive. -/
theorem mem_suspicious_of_joke {tf : TextFeatures} {dep : Option ℚ}
    {w : String} (hw : w ∈ tf.joke_words_found)
    (hc : 0 < tf.joke_word_count) :
    w ∈ (suspiciousCollected tf dep).dedup := by
  rw [List.mem_dedup]
  unfold suspiciousCollected
  by_cases h3 : 3 ≤ tf.joke_word_count <;>
    simp [List.mem_append, h3, hc, hw]

/-- Helper: abuse words reach the deduplicated suspicious list whenever the
abuse count is positive. -/
theorem mem_suspicious_of_abuse {tf : TextFeatures} {dep : Option ℚ}
    {w : String} (hw : w ∈ tf.abuse_words_found)
    (hc : 0 < tf.abuse_word_count) :
    w ∈ (suspiciousCollected tf dep).dedup := by
  rw [List.mem_dedup]
  unfold suspiciousCollected
  by_cases h3 : 3 ≤ tf.abuse_word_count <;>
    simp [List.mem_append, h3, hc, hw]

/-- Helper: nonsense words reach the deduplicated suspicious list when the
depression gate is open and the nonsense boost is positive. -/
theorem mem_suspicious_of_nonsense {tf : TextFeatures} {dep : Option ℚ}
    {w : String} (hw : w ∈ tf.nonsense_words)
    (hg : depressionGateLow dep = true) (hb : 0 < nonsenseBoostVal tf) :
    w ∈ (suspiciousCollected tf dep).dedup := by
  rw [List.mem_dedup]
  unfold suspiciousCollected
  simp [List.mem_append, hg, hb, hw]

/-- Amended claim C7: combine_scores reports every joke-classified and every
abuse-classified token among the suspicious words regardless of the count
thresholds, but it reports the nonsense-classified tokens only when the
step-1 depression gate is open (depression score unknown or below 0.3); a
known depression score of 0.3 or more suppresses the nonsense tokens (see
the counterexample). -/
theorem suspicious_tokens_reporting_amended (jw aw : List String)
    (tr : String) (threshold p : ℚ) (bf : BehaviorFeatures)
    (dep : Option ℚ) :
    (∀ w ∈ (extractTextFeatures jw aw tr).joke_words_found,
      w ∈ (combineScores threshold p (extractTextFeatures jw aw tr) bf
        dep).suspicious_words) ∧
    (∀ w ∈ (extractTextFeatures jw aw tr).abuse_words_found,
      w ∈ (combineScores threshold p (extractTextFeatures jw aw tr) bf
        dep).suspicious_words) ∧
    (depressionGateLow dep = true →
      ∀ w ∈ (extractTextFeatures jw aw tr).nonsense_words,
        w ∈ (combineScores threshold p (extractTextFeatures jw aw tr) bf
          dep).suspicious_words) := by
  refine ⟨?_, ?_, ?_⟩
  · intro w hw
    exact mem_suspicious_of_joke hw (extract_joke_count_pos hw)
  · intro w hw
    exact mem_suspicious_of_abuse hw (extract_abuse_count_pos hw)
  · intro hg w hw
    exact mem_suspicious_of_nonsense hw hg (extract_nonsense_boost_pos hw)

/-- Witness for the amended claim C7: the single joke token "lol" is
reported even though its count 1 is below the bonus threshold 3. -/
theorem suspicious_tokens_reporting_amended_witness :
    "lol" ∈ (combineScores 0.7 0.5
      (extractTextFeatures defaultJokeWords defaultAbuseWords "lol")
      { call_duration_sec := 30, repeat_call_count_last_hour := 0 }
      (some 0.5)).suspicious_words :=
  (suspicious_tokens_reporting_amended defaultJokeWords defaultAbuseWords
    "lol" 0.7 0.5 { call_duration_sec := 30, repeat_call_count_last_hour := 0 }
    (some 0.5)).1 "lol" (by decide)

/-- Helper: the lower clamp is redundant on a nonnegative score. -/
theorem max0_min1 (s : ℚ) (h : 0 ≤ s) : max 0 (min 1 s) = min 1 s :=
  max_eq_right (le_min zero_le_one h)

/-- Helper: an all-or-nothing bonus with a nonnegative value is
nonnegative. -/
theorem ifBonusNonneg (c : Prop) [Decidable c] {x : ℚ} (hx : 0 ≤ x) :
    0 ≤ if c then x else 0 := by
  split_ifs with h
  · exact hx
  · exact le_rfl

/-- Helper: bounds of the [0,1] clamp. -/
theorem clamp01_bounds (x : ℚ) : 0 ≤ clamp01 x ∧ clamp01 x ≤ 1 :=
  ⟨le_max_left 0 _, max_le (by norm_num) (min_le_left 1 x)⟩

/-- Helper: the typing-batch raw bonus sum is nonnegative. -/
theorem typingBonusSum_nonneg (f : TypingBatchFeatures) :
    (0:ℚ) ≤ 0 + (if 0.9 < f.speed_consistency then (0.3:ℚ) else 0)
      + (if 0.85 < f.timing_consistency then 0.25 else 0)
      + (if f.avg_error_rate < 0.01 then 0.15 else 0)
      + (if 0 < f.avg_pause_duration ∧ f.timing_std < 0.1 then 0.1 else 0)
      + (if f.timing_variance < 0.01 then 0.2 else 0) := by
  have h1 := ifBonusNonneg (0.9 < f.speed_consistency)
    (show (0:ℚ) ≤ 0.3 by norm_num)
  have h2 := ifBonusNonneg (0.85 < f.timing_consistency)
    (show (0:ℚ) ≤ 0.25 by norm_num)
  have h3 := ifBonusNonneg (f.avg_error_rate < 0.01)
    (show (0:ℚ) ≤ 0.15 by norm_num)
  have h4 := ifBonusNonneg (0 < f.avg_pause_duration ∧ f.timing_std < 0.1)
    (show (0:ℚ) ≤ 0.1 by norm_num)
  have h5 := ifBonusNonneg (f.timing_variance < 0.01)
    (show (0:ℚ) ≤ 0.2 by norm_num)
  linarith

/-- Typing-batch fake score rule set (claim C5): the score computed by
_detect_fake_typing_patterns equals the clamped-to-[0,1] sum of the five
independent all-or-nothing bonuses stated in the spec, a batch is marked
fake exactly when that score is at least 0.6, and a batch firing all five
bonuses scores exactly 1 and is fake. -/
theorem typing_batch_score_rule_set :
    (∀ f : TypingBatchFeatures,
      detectFakeTypingPatterns f = specTypingBatchScore f) ∧
    (∀ f : TypingBatchFeatures,
      typingBatchIsFake f = true ↔ 0.6 ≤ detectFakeTypingPatterns f) ∧
    (∀ f : TypingBatchFeatures,
      0.9 < f.speed_consistency → 0.85 < f.timing_consistency →
      f.avg_error_rate < 0.01 → 0 < f.avg_pause_duration →
      f.timing_std < 0.1 → f.timing_variance < 0.01 →
      detectFakeTypingPatterns f = 1 ∧ typingBatchIsFake f = true) := by
  refine ⟨?_, ?_, ?_⟩
  · intro f
    have hS := typingBonusSum_nonneg f
    rw [zero_add] at hS
    simp only [detectFakeTypingPatterns, specTypingBatchScore, zero_add]
    rw [max0_min1 _ hS]
  · intro f
    unfold typingBatchIsFake
    exact decide_eq_true_iff
  · intro f h1 h2 h3 h4 h5 h6
    constructor
    · unfold detectFakeTypingPatterns
      rw [if_pos h1, if_pos h2, if_pos h3, if_pos ⟨h4, h5⟩, if_pos h6]
      norm_num
    · unfold typingBatchIsFake detectFakeTypingPatterns
      rw [if_pos h1, if_pos h2, if_pos h3, if_pos ⟨h4, h5⟩, if_pos h6]
      norm_num

/-- Witness for claim C5: a batch whose aggregated features fire all five
bonuses scores exactly 1 and is marked fake. -/
theorem typing_batch_score_rule_set_witness :
    detectFakeTypingPatterns
      { timing_variance := 0, timing_mean := 1, timing_std := 0,
        avg_typing_speed := 5, std_typing_speed := 0,
        avg_pause_duration := 1, avg_error_rate := 0,
        speed_consistency := 0.95, timing_consistency := 0.9 } = 1 ∧
    typingBatchIsFake
      { timing_variance := 0, timing_mean := 1, timing_std := 0,
        avg_typing_speed := 5, std_typing_speed := 0,
        avg_pause_duration := 1, avg_error_rate := 0,
        speed_consistency := 0.95, timing_consistency := 0.9 } = true :=
  typing_batch_score_rule_set.2.2 _ (by norm_num) (by norm_num) (by norm_num)
    (by norm_num) (by norm_num) (by norm_num)

/-- Counterexample to claim C10: the pitch bot score at the coefficient of
variation 1/3 (above the 0.15 threshold) is exactly 0, contradicting the
claim that the score above the threshold is never exactly 0. -/
theorem voice_bot_score_zero_counterexample :
    (0.15:ℚ) < 1/3 ∧ pitchBotScoreOfCv (1/3) = 0 := by
  constructor
  · norm_num
  · simp only [pitchBotScoreOfCv]
    norm_num [min_def, max_def]

/-- Amended claim C10: below the per-signal threshold the pitch bot score is
the linear scaling of the distance below the threshold, saturating at 1 at a
coefficient of variation of 0; above the threshold it decays linearly from
the residual 0.3 and stays positive only while the coefficient of variation
is below threshold + 0.15, reaching exactly 0 from there on; the fallback
combined score is the fixed weighted sum with weights 0.20, 0.15, 0.25,
0.15, 0.10, 0.15. -/
theorem voice_bot_score_shape_amended :
    (∀ cv : ℚ, 0 ≤ cv → cv < 0.15 →
      pitchBotScoreOfCv cv = 1 - cv / 0.15) ∧
    pitchBotScoreOfCv 0 = 1 ∧
    (∀ cv : ℚ, 0.15 ≤ cv →
      pitchBotScoreOfCv cv = max 0 (0.3 - (cv - 0.15) * 2)) ∧
    (∀ cv : ℚ, 0.15 ≤ cv → cv < 0.3 → 0 < pitchBotScoreOfCv cv) ∧
    (∀ cv : ℚ, 0.3 ≤ cv → pitchBotScoreOfCv cv = 0) ∧
    (∀ p e m s z f : ℚ, fallbackFakeScore p e m s z f =
      (20 * p + 15 * e + 25 * m + 15 * s + 10 * z + 15 * f) / 100) := by
  have key : ∀ cv : ℚ, 0.15 ≤ cv →
      pitchBotScoreOfCv cv = max 0 (0.3 - (cv - 0.15) * 2) := by
    intro cv h
    simp only [pitchBotScoreOfCv, if_neg (not_lt.mpr h)]
    rw [← max_assoc, max_self]
    exact min_eq_right (max_le (by norm_num) (by linarith))
  refine ⟨?_, ?_, key, ?_, ?_, ?_⟩
  · intro cv h0 h1
    simp only [pitchBotScoreOfCv, if_pos h1]
    have ha : (0:ℚ) ≤ 1 - cv / 0.15 := by
      have : cv / 0.15 ≤ 1 := by
        rw [div_le_one (by norm_num)]
        linarith
      linarith
    have hb : 1 - cv / 0.15 ≤ 1 := by
      have : 0 ≤ cv / 0.15 := by positivity
      linarith
    rw [max_eq_right ha, min_eq_right hb]
  · simp only [pitchBotScoreOfCv]
    norm_num
  · intro cv h0 h1
    rw [key cv h0]
    have : (0:ℚ) < 0.3 - (cv - 0.15) * 2 := by linarith
    rw [max_eq_right (le_of_lt this)]
    exact this
  · intro cv h
    rw [key cv (by linarith)]
    exact max_eq_left (by linarith)
  · intro p e m s z f
    unfold fallbackFakeScore
    ring

/-- Witness for the amended claim C10: at a coefficient of variation of 0.5
the pitch bot score is exactly 0. -/
theorem voice_bot_score_shape_amended_witness :
    pitchBotScoreOfCv 0.5 = 0 :=
  voice_bot_score_shape_amended.2.2.2.2.1 0.5 (by norm_num)

/-- Helper: bounds of the min-after-max clamp used by the per-signal voice
analyzers. -/
theorem min1max0_bounds (x : ℚ) :
    0 ≤ min 1 (max 0 x) ∧ min 1 (max 0 x) ≤ 1 :=
  ⟨le_min (by norm_num) (le_max_left 0 x), min_le_left 1 _⟩

/-- Helper: the voice-batch raw bonus sum is nonnegative. -/
theorem voiceBonusSum_nonneg (f : VoiceBatchFeatures) :
    (0:ℚ) ≤ 0 + (if 0.9 < f.pitch_consistency then (0.3:ℚ) else 0)
      + (if 0.85 < f.energy_consistency then 0.25 else 0)
      + (if f.pitch_variance < 10 then 0.2 else 0)
      + (if 0.5 < f.avg_fake_confidence then 0.25 else 0) := by
  have h1 := ifBonusNonneg (0.9 < f.pitch_consistency)
    (show (0:ℚ) ≤ 0.3 by norm_num)
  have h2 := ifBonusNonneg (0.85 < f.energy_consistency)
    (show (0:ℚ) ≤ 0.25 by norm_num)
  have h3 := ifBonusNonneg (f.pitch_variance < 10)
    (show (0:ℚ) ≤ 0.2 by norm_num)
  have h4 := ifBonusNonneg (0.5 < f.avg_fake_confidence)
    (show (0:ℚ) ≤ 0.25 by norm_num)
  linarith

/-- Clamping invariant (claim C2): the final fake score of combine_scores,
the typing-batch and voice-batch fake scores, and every per-signal voice bot
score (pitch, energy, spectral, zero-crossing, formant, MFCC) lie in [0,1]
for every input. -/
theorem scoring_clamping_invariant :
    (∀ (threshold p : ℚ) (tf : TextFeatures) (bf : BehaviorFeatures)
        (dep : Option ℚ),
      0 ≤ (combineScores threshold p tf bf dep).fake_score ∧
        (combineScores threshold p tf bf dep).fake_score ≤ 1) ∧
    (∀ f : TypingBatchFeatures,
      0 ≤ detectFakeTypingPatterns f ∧ detectFakeTypingPatterns f ≤ 1) ∧
    (∀ f : VoiceBatchFeatures,
      0 ≤ detectFakeVoicePatterns f ∧ detectFakeVoicePatterns f ≤ 1) ∧
    (∀ cv : ℚ, 0 ≤ pitchBotScoreOfCv cv ∧ pitchBotScoreOfCv cv ≤ 1) ∧
    (∀ cv : ℚ, 0 ≤ energyBotScoreOfCv cv ∧ energyBotScoreOfCv cv ≤ 1) ∧
    (∀ cv : ℚ, 0 ≤ spectralBotScoreOfCv cv ∧ spectralBotScoreOfCv cv ≤ 1) ∧
    (∀ cv : ℚ, 0 ≤ zcrBotScoreOfCv cv ∧ zcrBotScoreOfCv cv ≤ 1) ∧
    (∀ cv : ℚ, 0 ≤ formantBotScoreOfCv cv ∧ formantBotScoreOfCv cv ≤ 1) ∧
    (∀ v s m : ℚ, 0 ≤ mfccBotScore v s m ∧ mfccBotScore v s m ≤ 1) := by
  refine ⟨?_, ?_, ?_, ?_, ?_, ?_, ?_, ?_, ?_⟩
  · intro threshold p tf bf dep
    exact clamp01_bounds (applySafetyCap threshold dep
      (scoreAfterRules p tf bf dep))
  · intro f
    have hS := typingBonusSum_nonneg f
    exact ⟨le_min (by norm_num) hS, min_le_left 1 _⟩
  · intro f
    have hS := voiceBonusSum_nonneg f
    exact ⟨le_min (by norm_num) hS, min_le_left 1 _⟩
  · intro cv
    exact min1max0_bounds _
  · intro cv
    exact min1max0_bounds _
  · intro cv
    exact min1max0_bounds _
  · intro cv
    exact min1max0_bounds _
  · intro cv
    unfold formantBotScoreOfCv
    split_ifs <;> norm_num
  · intro v s m
    exact min1max0_bounds _

/-- PHQ-9 interpretation bands (claim C4): interpret_score succeeds exactly
on totals in [0,27]; on success the severity and risk level follow the fixed
non-overlapping bands 0-4 minimal/low, 5-9 mild/moderate, 10-14
moderate/high, 15-19 moderately_severe/severe, 20-27 severe/severe, and
needs_escalation holds exactly when the total is at least 15. -/
theorem phq9_interpret_score_bands (s : Int) :
    ((interpretScore s).isSome = true ↔ 0 ≤ s ∧ s ≤ 27) ∧
    (∀ r, interpretScore s = some r →
      (r.needs_escalation = true ↔ 15 ≤ s) ∧
      ((r.severity, r.risk_level) = ("minimal", "low") ↔ 0 ≤ s ∧ s ≤ 4) ∧
      ((r.severity, r.risk_level) = ("mild", "moderate") ↔ 5 ≤ s ∧ s ≤ 9) ∧
      ((r.severity, r.risk_level) = ("moderate", "high") ↔
        10 ≤ s ∧ s ≤ 14) ∧
      ((r.severity, r.risk_level) = ("moderately_severe", "severe") ↔
        15 ≤ s ∧ s ≤ 19) ∧
      ((r.severity, r.risk_level) = ("severe", "severe") ↔
        20 ≤ s ∧ s ≤ 27)) := by
  unfold interpretScore
  split_ifs with h0 h1 h2 h3 h4 <;>
    refine ⟨by simp <;> omega, ?_⟩ <;>
    intro r hr <;>
    first
      | (rw [Option.some.injEq] at hr
         subst hr
         refine ⟨?_, ?_, ?_, ?_, ?_, ?_⟩ <;>
           simp [Prod.mk.injEq, decide_eq_true_eq] <;> omega)
      | simp at hr

/-- Witness for claim C4 at the escalation boundary: total 15 is in range
and its interpretation escalates. -/
theorem phq9_interpret_score_bands_witness :
    (interpretScore 15).isSome = true ∧
    (({ score := 15
        severity := "moderately_severe"
        risk_level := "severe"
        recommendation := "Your responses suggest moderately severe depression. Please consider immediate support. Call 1926 or speak with a mental health professional."
        needs_escalation := true } : PHQ9Interp).needs_escalation = true ↔
      15 ≤ (15:Int)) :=
  ⟨(phq9_interpret_score_bands 15).1.mpr (by norm_num),
   ((phq9_interpret_score_bands 15).2 _ (by decide)).1⟩

/-- PHQ-9 malformed-answer atomicity (claim C9): when the submitted message
does not parse to a score, the chat route leaves the session untouched
(current question and recorded answers unchanged), marks the response as a
phq9_error without completing, and re-presents the current question. -/
theorem phq9_malformed_answer_atomicity (s : Phq9SessionState) (msg : String)
    (h : parseAnswer msg = none) :
    (phq9HandleAnswer s msg).state = s ∧
    (phq9HandleAnswer s msg).intent = "phq9_error" ∧
    (phq9HandleAnswer s msg).completed = false ∧
    (1 ≤ s.currentQuestion → s.currentQuestion ≤ 9 →
      (phq9HandleAnswer s msg).presentedQuestion =
        some s.currentQuestion) := by
  unfold phq9HandleAnswer
  rw [h]
  refine ⟨rfl, rfl, rfl, ?_⟩
  intro h1 h2
  simp [h1, h2]

/-- Witness for claim C9: the unparseable message "blah" leaves a session at
question 3 with two recorded answers exactly as it was and re-presents
question 3. -/
theorem phq9_malformed_answer_atomicity_witness :
    (phq9HandleAnswer { currentQuestion := 3, answers := [(1, 2), (2, 1)] }
        "blah").state =
      { currentQuestion := 3, answers := [(1, 2), (2, 1)] } ∧
    (phq9HandleAnswer { currentQuestion := 3, answers := [(1, 2), (2, 1)] }
        "blah").presentedQuestion = some 3 := by
  have h := phq9_malformed_answer_atomicity
    { currentQuestion := 3, answers := [(1, 2), (2, 1)] } "blah" (by decide)
  exact ⟨h.1, h.2.2.2 (by decide) (by decide)⟩

theorem labelsMaxIndex_cons (l : String) (ls : List String) :
    labelsMaxIndex (l :: ls) = max (riskIndex l) (labelsMaxIndex ls) := rfl

theorem riskIndex_eq (l : String) :
    riskIndex l = if l = "severe" then 3 else if l = "high" then 2
      else if l = "moderate" then 1 else 0 := by
  by_cases h1 : l = "severe"
  · subst h1; decide
  · by_cases h2 : l = "high"
    · subst h2; decide
    · by_cases h3 : l = "moderate"
      · subst h3; decide
      · by_cases h4 : l = "low"
        · subst h4; decide
        · rw [if_neg h1, if_neg h2, if_neg h3]
          unfold riskIndex
          rw [if_neg]
          simp [riskOrder, h1, h2, h3, h4]

theorem chain_index_le_two (ls : List String) (h : "severe" ∉ ls) :
    riskIndex (riskChainOf ls) ≤ 2 := by
  simp only [riskChainOf, if_neg h]
  split_ifs <;> decide

theorem chain_index_le_one (ls : List String) (h1 : "severe" ∉ ls)
    (h2 : "high" ∉ ls) : riskIndex (riskChainOf ls) ≤ 1 := by
  simp only [riskChainOf, if_neg h1, if_neg h2]
  split_ifs <;> decide

theorem riskIndex_riskChainOf (ls : List String) :
    riskIndex (riskChainOf ls) = labelsMaxIndex ls := by
  induction ls with
  | nil => decide
  | cons l ls ih =>
    rw [labelsMaxIndex_cons]
    have hle3 : labelsMaxIndex ls ≤ 3 := by
      rw [← ih, riskIndex_eq]
      split_ifs <;> omega
    by_cases h1 : l = "severe"
    · subst h1
      rw [show riskChainOf ("severe" :: ls) = "severe" from
        if_pos (List.mem_cons_self _ _)]
      simp only [riskIndex_eq]
      simp
      omega
    · by_cases hs : "severe" ∈ ls
      · have hmem : "severe" ∈ l :: ls := List.mem_cons_of_mem _ hs
        rw [show riskChainOf (l :: ls) = "severe" from if_pos hmem]
        have h3v : labelsMaxIndex ls = 3 := by
          rw [← ih, show riskChainOf ls = "severe" from if_pos hs]
          decide
        simp only [riskIndex_eq]
        simp [h1]
        split_ifs <;> omega
      · have hsc : "severe" ∉ l :: ls := by
          intro hc
          rcases List.mem_cons.mp hc with hc | hc
          · exact h1 hc.symm
          · exact hs hc
        by_cases h2 : l = "high"
        · subst h2
          rw [show riskChainOf ("high" :: ls) = "high" by
            unfold riskChainOf
            rw [if_neg hsc, if_pos (List.mem_cons_self _ _)]]
          have hm2 : labelsMaxIndex ls ≤ 2 := by
            rw [← ih]
            exact chain_index_le_two ls hs
          simp only [riskIndex_eq]
          simp
          omega
        · by_cases hh : "high" ∈ ls
          · have hmem : "high" ∈ l :: ls := List.mem_cons_of_mem _ hh
            rw [show riskChainOf (l :: ls) = "high" by
              unfold riskChainOf
              rw [if_neg hsc, if_pos hmem]]
            have h2v : labelsMaxIndex ls = 2 := by
              rw [← ih, show riskChainOf ls = "high" by
                unfold riskChainOf
                rw [if_neg hs, if_pos hh]]
              decide
            simp only [riskIndex_eq]
            simp [h1, h2]
            split_ifs <;> omega
          · have hhc : "high" ∉ l :: ls := by
              intro hc
              rcases List.mem_cons.mp hc with hc | hc
              · exact h2 hc.symm
              · exact hh hc
            by_cases h3 : l = "moderate"
            · subst h3
              rw [show riskChainOf ("moderate" :: ls) = "moderate" by
                unfold riskChainOf
                rw [if_neg hsc, if_neg hhc, if_pos (List.mem_cons_self _ _)]]
              have hm1 : labelsMaxIndex ls ≤ 1 := by
                rw [← ih]
                exact chain_index_le_one ls hs hh
              simp only [riskIndex_eq]
              simp
              omega
            · by_cases hm : "moderate" ∈ ls
              · have hmem : "moderate" ∈ l :: ls := List.mem_cons_of_mem _ hm
                rw [show riskChainOf (l :: ls) = "moderate" by
                  unfold riskChainOf
                  rw [if_neg hsc, if_neg hhc, if_pos hmem]]
                have h1v : labelsMaxIndex ls = 1 := by
                  rw [← ih, show riskChainOf ls = "moderate" by
                    unfold riskChainOf
                    rw [if_neg hs, if_neg hh, if_pos hm]]
                  decide
                simp only [riskIndex_eq]
                simp [h1, h2]
                split_ifs <;> omega
              · have hmc : "moderate" ∉ l :: ls := by
                  intro hc
                  rcases List.mem_cons.mp hc with hc | hc
                  · exact h3 hc.symm
                  · exact hm hc
                rw [show riskChainOf (l :: ls) = "low" by
                  unfold riskChainOf
                  rw [if_neg hsc, if_neg hhc, if_neg hmc]]
                have h0v : labelsMaxIndex ls = 0 := by
                  rw [← ih, show riskChainOf ls = "low" by
                    unfold riskChainOf
                    rw [if_neg hs, if_neg hh, if_neg hm]]
                  decide
                simp only [riskIndex_eq]
                simp [h1, h2, h3]
                omega

/-- Helper: the chain value is one of the four canonical labels. -/
theorem riskChainOf_canonical (ls : List String) :
    riskChainOf ls = "severe" ∨ riskChainOf ls = "high" ∨
    riskChainOf ls = "moderate" ∨ riskChainOf ls = "low" := by
  unfold riskChainOf
  split_ifs <;> simp

/-- Helper: the risk index of the session-derived risk is the maximal index
of the labels of the five most recent sessions. -/
theorem sessionRisk_index (sessions : List TwinSession) :
    riskIndex (sessionDerivedRisk sessions) =
      labelsMaxIndex (sessionRiskLabels sessions) := by
  unfold sessionDerivedRisk
  by_cases hE : sessions.isEmpty = true
  · rw [if_pos hE]
    have h : sessions = [] := List.isEmpty_iff.mp hE
    subst h
    decide
  · rw [if_neg hE]
    exact riskIndex_riskChainOf _

/-- Aggregated risk is a maximum (claim C3): the overall risk level of
_determine_overall_risk is the label at the pointwise maximum, on the
ordered scale low, moderate, high, severe, of the maximal risk index among
the five most recent sessions and the mood-derived risk index; the
session-derived risk itself realizes that maximal label; and in particular
session-derived moderate with mood-derived severe yields severe. -/
theorem overall_risk_is_pointwise_max (now : Int)
    (sessions : List TwinSession) (checkins : List MoodCheckin) :
    determineOverallRisk now sessions checkins =
      levelOfIndex (max (labelsMaxIndex (sessionRiskLabels sessions))
        (riskIndex (calculateMoodRisk now checkins))) ∧
    sessionDerivedRisk sessions =
      levelOfIndex (labelsMaxIndex (sessionRiskLabels sessions)) ∧
    (sessionDerivedRisk sessions = "moderate" →
      calculateMoodRisk now checkins = "severe" →
      determineOverallRisk now sessions checkins = "severe") := by
  refine ⟨?_, ?_, ?_⟩
  · unfold determineOverallRisk
    rw [sessionRisk_index]
  · rw [← sessionRisk_index]
    unfold sessionDerivedRisk
    by_cases hE : sessions.isEmpty = true
    · rw [if_pos hE]
      decide
    · rw [if_neg hE]
      rcases riskChainOf_canonical (sessionRiskLabels sessions) with
        h | h | h | h <;> rw [h] <;> decide
  · intro hsess hmood
    unfold determineOverallRisk
    rw [hsess, hmood]
    decide

/-- Witness for claim C3: one session labelled moderate together with one
recent all-negative mood check-in aggregates to severe. -/
theorem overall_risk_is_pointwise_max_witness :
    determineOverallRisk 0
      [{ startTime := 0, riskLevel := some "moderate",
         depressionScore := none }]
      [{ createdAt := 0, mood := some "Sad" }] = "severe" := by
  have hmood : calculateMoodRisk 0 [{ createdAt := 0, mood := some "Sad" }]
      = "severe" := by
    unfold calculateMoodRisk recentMoodsOf
    norm_num [moodIsNegative, negativeMoods]
  exact (overall_risk_is_pointwise_max 0 _ _).2.2 (by decide) hmood

/-- Counterexample to claim C8: a history of exactly two sessions, both
carrying depression scores, yields no trend at all, because the slice of
sessions earlier than the five most recent is empty; the claim promised a
trend for every history with at least two sessions. -/
theorem trend_two_sessions_counterexample :
    calculateTrends
      [{ startTime := 0, riskLevel := none, depressionScore := some 1 },
       { startTime := 1, riskLevel := none, depressionScore := some 2 }]
      = none := by
  decide

/-- Amended claim C8: the trend is omitted not only below two sessions but
whenever either the five most recent sessions or the earlier sessions carry
no depression score (so any history of two to five sessions has no trend);
when both score groups are nonempty and there are at least two sessions, the
trend compares the mean of the recent scores against the mean of the
earlier scores, lower recent mean meaning improving and higher meaning
declining. -/
theorem trend_computation_amended (sessions : List TwinSession) :
    (sessions.length < 2 → calculateTrends sessions = none) ∧
    (recentScoresOf sessions = [] ∨ earlierScoresOf sessions = [] →
      calculateTrends sessions = none) ∧
    (2 ≤ sessions.length → recentScoresOf sessions ≠ [] →
      earlierScoresOf sessions ≠ [] →
      calculateTrends sessions = some
        (if recentAvgOf sessions < earlierAvgOf sessions then "improving"
         else if earlierAvgOf sessions < recentAvgOf sessions
           then "declining"
         else "stable",
         recentAvgOf sessions - earlierAvgOf sessions)) := by
  refine ⟨?_, ?_, ?_⟩
  · intro h
    unfold calculateTrends
    rw [if_pos h]
  · intro h
    unfold calculateTrends
    by_cases hlen : sessions.length < 2
    · rw [if_pos hlen]
    · rw [if_neg hlen, if_pos h]
  · intro h1 h2 h3
    unfold calculateTrends
    rw [if_neg (not_lt.mpr h1), if_neg]
    intro hc
    rcases hc with hc | hc
    · exact h2 hc
    · exact h3 hc

/-- Witness for the amended claim C8: a single-session history has no
trend. -/
theorem trend_computation_amended_witness :
    calculateTrends
      [{ startTime := 0, riskLevel := none, depressionScore := some 1 }]
      = none :=
  (trend_computation_amended _).1 (by decide)
